import Mathlib

/-!
Verification of the HKS-Spatial microservice supervisor
(`coordinator/service_manager.py`).

The supervisor manages a registry of submodule services.  Each service owns
at most one OS process handle (modelled as an `Option Nat` pid) and a status.
The environment (spawn results, per-tick poll/health observations, stop and
cleanup outcomes, health-probe outcomes) is passed in explicitly as oracle
data, so every operation of the source becomes a pure function on
`ServiceState` and the registry list.
-/

namespace SM

/-- `ServiceStatus` enum of the source: STOPPED, STARTING, RUNNING, ERROR,
UNHEALTHY. -/
inductive ServiceStatus
  | stopped
  | starting
  | running
  | error
  | unhealthy
deriving DecidableEq, Repr

/-- The `.value` string of each status member. -/
def statusValue : ServiceStatus → String
  | .stopped => "stopped"
  | .starting => "starting"
  | .running => "running"
  | .error => "error"
  | .unhealthy => "unhealthy"

/-- Mutable state of one `SubmoduleService`: host and port (static), the
owned process handle (`self.process`, a pid when present) and the status. -/
structure ServiceState where
  host : String
  port : Nat
  process : Option Nat
  status : ServiceStatus
deriving DecidableEq, Repr

/-- `url` property: `http://host:port`. -/
def url (s : ServiceState) : String :=
  "http://" ++ s.host ++ ":" ++ toString s.port

/-- `health_url` property: `url + /health`. -/
def health_url (s : ServiceState) : String :=
  url s ++ "/health"

/-- Outcome of one HTTP health probe: a 200 response, a non-200 response, or
a network failure (`requests.exceptions.RequestException`). -/
inductive ProbeResult
  | ok200
  | codeOther
  | netFail
deriving DecidableEq, Repr

/-- Whether a probe outcome counts as healthy (`status_code == 200`). -/
def probeOk : ProbeResult → Bool
  | .ok200 => true
  | _ => false

/-- `SubmoduleService.check_health`: one bounded GET to the health url.
A 200 response sets RUNNING; any other response sets UNHEALTHY; a network
failure downgrades RUNNING to UNHEALTHY and otherwise leaves the status
alone.  The process handle is never touched. -/
def check_health (p : ProbeResult) (s : ServiceState) : Bool × ServiceState :=
  match p with
  | .ok200 => (true, { s with status := ServiceStatus.running })
  | .codeOther => (false, { s with status := ServiceStatus.unhealthy })
  | .netFail =>
      (false,
        if s.status = ServiceStatus.running then
          { s with status := ServiceStatus.unhealthy }
        else s)

/-- Outcome of the terminate/wait/kill sequence inside `stop`:
graceful termination, a wait timeout answered by `kill()`, an internal
exception caught by the handler (returns `False`), or an exception raised
by `kill()` itself, which propagates out of `stop`. -/
inductive StopOutcome
  | graceful
  | timeoutThenKill
  | internalExc
  | killRaises
deriving DecidableEq, Repr

/-- `SubmoduleService.stop`: returns `True` at once when no handle exists;
otherwise terminates and waits, escalating to `kill()` on timeout.  Both
termination outcomes set status STOPPED and return `True`, but the handle is
never cleared (`self.process` keeps its value).  A caught internal exception
returns `False` with the state unchanged; an exception from `kill()`
propagates (`Except.error`). -/
def stop (o : StopOutcome) (s : ServiceState) : Except Unit (Bool × ServiceState) :=
  match s.process with
  | none => Except.ok (true, s)
  | some _ =>
      match o with
      | .graceful => Except.ok (true, { s with status := ServiceStatus.stopped })
      | .timeoutThenKill => Except.ok (true, { s with status := ServiceStatus.stopped })
      | .internalExc => Except.ok (false, s)
      | .killRaises => Except.error ()

/-- Outcome of the terminate/wait(5)/kill sequence inside
`_cleanup_failed_process` when the process is still running. -/
inductive TermObs
  | ok
  | timeoutThenKill
  | raises
deriving DecidableEq, Repr

/-- `SubmoduleService._cleanup_failed_process`: does nothing without a
handle.  With a handle: when `poll()` reports the process still running it
terminates (then kills on timeout) before clearing the handle; when some
step of that sequence raises, the exception is caught and the handle is NOT
cleared (the `self.process = None` line is skipped).  When the process has
already exited the handle is cleared at once.  Also returns the list of pids
a termination was attempted on. -/
def cleanup_failed_process (stillRunning : Bool) (t : TermObs) (s : ServiceState) :
    ServiceState × List Nat :=
  match s.process with
  | none => (s, [])
  | some p =>
      if stillRunning then
        match t with
        | .raises => (s, [p])
        | _ => ({ s with process := none }, [p])
      else ({ s with process := none }, [])

/-- One tick of `start`'s polling loop: either `poll()` reports the child
exited, or the child is alive and the health probe returns `p`. -/
inductive TickObs
  | exited
  | alive (p : ProbeResult)
deriving DecidableEq, Repr

/-- Environment for one `start` call: whether the venv interpreter and the
entrypoint script resolve, the pid of the would-be spawned child, the
per-tick observations, the buffered stderr text, and the cleanup
observations used off the crash path. -/
structure StartEnv where
  exeOk : Bool
  scriptOk : Bool
  newPid : Nat
  obs : Nat → TickObs
  stderrText : String
  cleanupStill : Bool
  cleanupTerm : TermObs

/-- Result of one `start` call: the returned boolean, the final service
state, the pids spawned during the call, the pids a termination was
attempted on, and the stderr excerpt logged for diagnostics (when any). -/
structure StartResult where
  ok : Bool
  st : ServiceState
  spawned : List Nat
  terminated : List Nat
  loggedStderr : Option String
deriving DecidableEq, Repr

/-- `max_retries = 60` of the startup polling loop. -/
def max_retries : Nat := 60

/-- The stderr excerpt `start` logs: Python logs `stderr_output[:500]` only
when the captured text is non-empty (empty strings are falsy). -/
def stderrLog (t : String) : Option String :=
  if t = "" then none else some (t.take 500)

/-- The polling loop of `start` (`for i in range(max_retries)`), after the
child has been spawned.  Each tick first polls for a crash (status ERROR,
stderr logged, handle cleanup with the process known exited), then calls
`check_health` — whose status side effects persist across ticks — and on
success sets RUNNING and returns.  Exhausting the loop is a startup
timeout: status ERROR, stderr logged, cleanup of the possibly still-running
orphan. -/
def startLoop (env : StartEnv) : Nat → Nat → ServiceState →
    Bool × ServiceState × List Nat × Option String
  | _, 0, s =>
      let s1 := { s with status := ServiceStatus.error }
      let c := cleanup_failed_process env.cleanupStill env.cleanupTerm s1
      (false, c.1, c.2, stderrLog env.stderrText)
  | i, fuel + 1, s =>
      match env.obs i with
      | .exited =>
          let s1 := { s with status := ServiceStatus.error }
          let c := cleanup_failed_process false env.cleanupTerm s1
          (false, c.1, c.2, stderrLog env.stderrText)
      | .alive p =>
          let h := check_health p s
          if h.1 then (true, { h.2 with status := ServiceStatus.running }, [], none)
          else startLoop env (i + 1) fuel h.2

/-- `SubmoduleService.start`: returns `True` at once when status is RUNNING.
Otherwise sets STARTING, resolves the interpreter and the script (a missing
one raises `FileNotFoundError`, caught by the handler: status ERROR, cleanup
of whatever handle was owned, return `False`), spawns the child —
overwriting `self.process` — and enters the polling loop. -/
def start (env : StartEnv) (s : ServiceState) : StartResult :=
  if s.status = ServiceStatus.running then
    { ok := true, st := s, spawned := [], terminated := [], loggedStderr := none }
  else
    let s1 := { s with status := ServiceStatus.starting }
    if env.exeOk = false then
      let s2 := { s1 with status := ServiceStatus.error }
      let c := cleanup_failed_process env.cleanupStill env.cleanupTerm s2
      { ok := false, st := c.1, spawned := [], terminated := c.2, loggedStderr := none }
    else if env.scriptOk = false then
      let s2 := { s1 with status := ServiceStatus.error }
      let c := cleanup_failed_process env.cleanupStill env.cleanupTerm s2
      { ok := false, st := c.1, spawned := [], terminated := c.2, loggedStderr := none }
    else
      let s2 := { s1 with process := some env.newPid }
      let r := startLoop env 0 max_retries s2
      { ok := r.1, st := r.2.1, spawned := [env.newPid], terminated := r.2.2.1,
        loggedStderr := r.2.2.2 }

/-- `SubmoduleService.restart`: `stop()` then `start()`; an exception from
`stop` propagates. -/
def restart (o : StopOutcome) (env : StartEnv) (s : ServiceState) :
    Except Unit StartResult :=
  match stop o s with
  | .error e => Except.error e
  | .ok r => Except.ok (start env r.2)

/-- One iteration body of `ServiceManager.stop_all` once the status filter
has passed: `service.stop()` with its exception caught; the force-kill
answer to a caught exception changes no field. -/
def stop_all_one (o : StopOutcome) (s : ServiceState) : ServiceState :=
  match stop o s with
  | .ok r => r.2
  | .error _ => s

/-- `ServiceManager.stop_all` over the registry, with the stop outcome of
the service at position `i` given by `os i`.  A service whose status is
STOPPED is skipped (the `if service.status != ServiceStatus.STOPPED` guard).
Returns the updated registry and the names on which `stop()` was invoked. -/
def stop_all_go (os : Nat → StopOutcome) : Nat → List (String × ServiceState) →
    List (String × ServiceState) × List String
  | _, [] => ([], [])
  | i, (k, s) :: rest =>
      let r := stop_all_go os (i + 1) rest
      if s.status = ServiceStatus.stopped then ((k, s) :: r.1, r.2)
      else ((k, stop_all_one (os i) s) :: r.1, k :: r.2)

/-- `ServiceManager.stop_all` from the head of the registry. -/
def stop_all (os : Nat → StopOutcome) (svcs : List (String × ServiceState)) :
    List (String × ServiceState) × List String :=
  stop_all_go os 0 svcs

/-- Behaviour of the `service.start()` call made for one registry entry in
`start_all`: a normal run with environment `env`, an `Exception` propagating
out of the call (caught by `start_all`, recorded as a failure, iteration
continues) leaving the service in state `post`, or a `KeyboardInterrupt`
(not an `Exception`) caught by the dedicated handler, which stops all
services and aborts. -/
inductive SvcBeh
  | normal (env : StartEnv)
  | raisesExc (post : ServiceState)
  | keyboardInt (post : ServiceState)

/-- Environment of one `start_all` call: a behaviour per registry position
plus the stop outcomes used by `stop_all` should a `KeyboardInterrupt`
arrive. -/
structure StartAllEnv where
  beh : Nat → SvcBeh
  stopOut : Nat → StopOutcome

/-- Result of `ServiceManager.start_all`: the returned boolean, the updated
registry, and the `successful_services` / `failed_services` /
`skipped_services` name lists the source accumulates. -/
structure StartAllResult where
  ok : Bool
  services : List (String × ServiceState)
  successes : List String
  failures : List String
  skipped : List String
  interrupted : Bool
deriving DecidableEq, Repr

/-- The iteration of `ServiceManager.start_all`: excluded names are
skipped; a normal `start` is recorded as success or failure by its returned
boolean; a propagated `Exception` is caught and recorded as failure with
iteration continuing; a `KeyboardInterrupt` triggers `stop_all` over the
whole registry (prefix already processed, suffix untouched) and an
immediate `False` return. -/
def start_all_go (E : StartAllEnv) (exclude : List String) :
    Nat → List (String × ServiceState) → List (String × ServiceState) →
    StartAllResult
  | _, done, [] =>
      { ok := false, services := done, successes := [], failures := [],
        skipped := [], interrupted := false }
  | i, done, (k, s) :: rest =>
      if k ∈ exclude then
        let r := start_all_go E exclude (i + 1) (done ++ [(k, s)]) rest
        { r with skipped := k :: r.skipped }
      else
        match E.beh i with
        | .normal env =>
            let rs := start env s
            let r := start_all_go E exclude (i + 1) (done ++ [(k, rs.st)]) rest
            if rs.ok then { r with successes := k :: r.successes }
            else { r with failures := k :: r.failures }
        | .raisesExc post =>
            let r := start_all_go E exclude (i + 1) (done ++ [(k, post)]) rest
            { r with failures := k :: r.failures }
        | .keyboardInt post =>
            { ok := false,
              services := (stop_all E.stopOut (done ++ (k, post) :: rest)).1,
              successes := [], failures := [], skipped := [],
              interrupted := true }

/-- `ServiceManager.start_all`: iterate the registry, then return
`len(successful_services) > 0`; the `KeyboardInterrupt` path returns
`False` unconditionally. -/
def start_all (E : StartAllEnv) (exclude : List String)
    (svcs : List (String × ServiceState)) : StartAllResult :=
  let r := start_all_go E exclude 0 [] svcs
  if r.interrupted then r else { r with ok := !r.successes.isEmpty }

/-- One snapshot entry of `ServiceManager.get_status`: the `status`,
`url` and `healthy` dictionary fields. -/
structure StatusSnapshot where
  statusField : String
  urlField : String
  healthy : Bool
deriving DecidableEq, Repr

/-- `ServiceManager.get_status`: for each service, build the snapshot
dictionary: Python evaluates the dict values left to right, so
`service.status.value` is read BEFORE `service.check_health()` runs, while
`healthy` is the fresh probe of the same call, whose status side effects
persist in the registry. -/
def get_status (ps : Nat → ProbeResult) : Nat → List (String × ServiceState) →
    List (String × StatusSnapshot) × List (String × ServiceState)
  | _, [] => ([], [])
  | i, (k, s) :: rest =>
      let pre := statusValue s.status
      let u := url s
      let h := check_health (ps i) s
      let r := get_status ps (i + 1) rest
      ((k, { statusField := pre, urlField := u, healthy := h.1 }) :: r.1,
        (k, h.2) :: r.2)

/-- `ServiceManager.health_check_all`: probe every service, collecting the
booleans; the status side effects persist. -/
def health_check_all (ps : Nat → ProbeResult) : Nat → List (String × ServiceState) →
    List (String × Bool) × List (String × ServiceState)
  | _, [] => ([], [])
  | i, (k, s) :: rest =>
      let h := check_health (ps i) s
      let r := health_check_all ps (i + 1) rest
      ((k, h.1) :: r.1, (k, h.2) :: r.2)

/-- Number of parameters the source's `signal_handler` closure declares:
`def signal_handler():` takes none. -/
def signal_handler_param_count : Nat := 0

/-- Number of positional arguments the Python runtime passes to a handler
registered with `signal.signal`: the signal number and the frame. -/
def signal_delivery_arg_count : Nat := 2

/-- Coordinator-level state seen by the signal handler: the
`_shutdown_requested` flag and the registry. -/
structure CoordState where
  shutdown_requested : Bool
  services : List (String × ServiceState)
deriving DecidableEq, Repr

/-- Outcome of a signal delivery: the host process exits with a code after
the handler body ran, or the call raises `TypeError` before the body runs. -/
inductive HandlerResult
  | exitCode (code : Nat) (final : CoordState)
  | typeErr (final : CoordState)
deriving DecidableEq, Repr

/-- The body of the source's `signal_handler` closure: first signal sets
the flag, runs `stop_all`, exits 0; a signal with the flag already set
exits 1 without `stop_all`. -/
def signal_handler_body (os : Nat → StopOutcome) (c : CoordState) : HandlerResult :=
  if c.shutdown_requested = false then
    HandlerResult.exitCode 0
      { shutdown_requested := true, services := (stop_all os c.services).1 }
  else HandlerResult.exitCode 1 c

/-- Delivery of SIGINT or SIGTERM: Python calls the registered handler with
`(signum, frame)`; when the declared parameter count does not match, the
call raises `TypeError` before any of the body executes, leaving the
coordinator state untouched. -/
def deliver_signal (os : Nat → StopOutcome) (c : CoordState) : HandlerResult :=
  if signal_delivery_arg_count = signal_handler_param_count then
    signal_handler_body os c
  else HandlerResult.typeErr c

/-- The spec's handle invariant: a process handle exists iff status is one
of STARTING, RUNNING, UNHEALTHY. -/
def handleInv (s : ServiceState) : Prop :=
  s.process.isSome = true ↔
    (s.status = ServiceStatus.starting ∨ s.status = ServiceStatus.running ∨
      s.status = ServiceStatus.unhealthy)

instance (s : ServiceState) : Decidable (handleInv s) := by
  unfold handleInv; infer_instance

/-- The status transition claimed for `check_health` by the specification,
read as an exhaustive enumeration ("changes status exactly as follows"):
success while STARTING/RUNNING/UNHEALTHY gives RUNNING; failure while
RUNNING or UNHEALTHY gives UNHEALTHY; every other case leaves the status
unchanged. -/
def claimedHealthTransition (p : ProbeResult) (st : ServiceStatus) : ServiceStatus :=
  if probeOk p = true ∧
      (st = ServiceStatus.starting ∨ st = ServiceStatus.running ∨
        st = ServiceStatus.unhealthy) then
    ServiceStatus.running
  else if probeOk p = false ∧ st = ServiceStatus.running then ServiceStatus.unhealthy
  else if probeOk p = false ∧ st = ServiceStatus.unhealthy then ServiceStatus.unhealthy
  else st

/-- The status transition `check_health` actually implements: a 200 sets
RUNNING from any status; a non-200 response sets UNHEALTHY from any status;
a network failure downgrades RUNNING to UNHEALTHY and leaves any other
status unchanged. -/
def actualHealthTransition (p : ProbeResult) (st : ServiceStatus) : ServiceStatus :=
  match p with
  | .ok200 => ServiceStatus.running
  | .codeOther => ServiceStatus.unhealthy
  | .netFail => if st = ServiceStatus.running then ServiceStatus.unhealthy else st

/-- The snapshot `get_status` is claimed to build for one service: the
status string of the PRE-probe state and the outcome of the fresh probe. -/
def snapshotOf (p : ProbeResult) (s : ServiceState) : StatusSnapshot :=
  { statusField := statusValue s.status, urlField := url s, healthy := probeOk p }

/-- The per-service snapshots of `get_status`, from the pre-probe states. -/
def preSnapshots (ps : Nat → ProbeResult) : Nat → List (String × ServiceState) →
    List (String × StatusSnapshot)
  | _, [] => []
  | i, (k, s) :: rest => (k, snapshotOf (ps i) s) :: preSnapshots ps (i + 1) rest

/-- The registry `start_all` leaves behind when no `KeyboardInterrupt`
arrives: excluded entries are untouched, every other entry is replaced by
the state its own behaviour produces. -/
def processAll (E : StartAllEnv) (exclude : List String) :
    Nat → List (String × ServiceState) → List (String × ServiceState)
  | _, [] => []
  | i, (k, s) :: rest =>
      (if k ∈ exclude then (k, s)
        else match E.beh i with
          | .normal env => (k, (start env s).st)
          | .raisesExc post => (k, post)
          | .keyboardInt post => (k, post)) :: processAll E exclude (i + 1) rest

/-- The names `start_all` records as successfully started when no
`KeyboardInterrupt` arrives: the non-excluded entries whose `start`
returned `True`. -/
def succNames (E : StartAllEnv) (exclude : List String) :
    Nat → List (String × ServiceState) → List String
  | _, [] => []
  | i, (k, s) :: rest =>
      if k ∈ exclude then succNames E exclude (i + 1) rest
      else
        match E.beh i with
        | .normal env =>
            if (start env s).ok then k :: succNames E exclude (i + 1) rest
            else succNames E exclude (i + 1) rest
        | _ => succNames E exclude (i + 1) rest

/-- A concrete service used by witnesses: RUNNING and owning pid 7. -/
def svcRunning7 : ServiceState :=
  { host := "127.0.0.1", port := 8001, process := some 7,
    status := ServiceStatus.running }

/-- A concrete service used by witnesses: freshly registered, STOPPED,
owning nothing. -/
def svcFresh : ServiceState :=
  { host := "127.0.0.1", port := 8002, process := none,
    status := ServiceStatus.stopped }

/-- A start environment in which everything resolves and the very first
health probe answers 200. -/
def goodStartEnv : StartEnv :=
  { exeOk := true, scriptOk := true, newPid := 5, obs := fun _ => TickObs.alive ProbeResult.ok200,
    stderrText := "", cleanupStill := false, cleanupTerm := TermObs.ok }

/-- A start environment in which the child is observed already exited at
the first poll, with buffered stderr text. -/
def crashStartEnv : StartEnv :=
  { exeOk := true, scriptOk := true, newPid := 6, obs := fun _ => TickObs.exited,
    stderrText := "boom", cleanupStill := false, cleanupTerm := TermObs.ok }

/-- The names `start_all` records as failed when no `KeyboardInterrupt`
arrives: the non-excluded entries whose `start` returned `False` or whose
call raised a caught `Exception`. -/
def failNames (E : StartAllEnv) (exclude : List String) :
    Nat → List (String × ServiceState) → List String
  | _, [] => []
  | i, (k, s) :: rest =>
      if k ∈ exclude then failNames E exclude (i + 1) rest
      else
        match E.beh i with
        | .normal env =>
            if (start env s).ok then failNames E exclude (i + 1) rest
            else k :: failNames E exclude (i + 1) rest
        | .raisesExc _ => k :: failNames E exclude (i + 1) rest
        | .keyboardInt _ => failNames E exclude (i + 1) rest

/-- The names `start_all` records as skipped: the excluded entries, in
registration order. -/
def skipNames (exclude : List String) : List (String × ServiceState) → List String
  | [] => []
  | (k, _) :: rest =>
      if k ∈ exclude then k :: skipNames exclude rest else skipNames exclude rest

/-- The registry `stop_all` leaves behind: entries with status STOPPED are
untouched, every other entry is replaced by its own stop outcome —
independent of what happened to the other services. -/
def stopAllSpec (os : Nat → StopOutcome) : Nat → List (String × ServiceState) →
    List (String × ServiceState)
  | _, [] => []
  | i, (k, s) :: rest =>
      (k, if s.status = ServiceStatus.stopped then s else stop_all_one (os i) s)
        :: stopAllSpec os (i + 1) rest

/-- A `start_all` environment in which every service starts normally and
successfully. -/
def allGoodEnv : StartAllEnv :=
  { beh := fun _ => SvcBeh.normal goodStartEnv,
    stopOut := fun _ => StopOutcome.graceful }

/-- A `start_all` environment in which the first service starts normally
and a `KeyboardInterrupt` arrives during the second service's start. -/
def interruptEnv : StartAllEnv :=
  { beh := fun i => if i = 0 then SvcBeh.normal goodStartEnv
      else SvcBeh.keyboardInt svcFresh,
    stopOut := fun _ => StopOutcome.graceful }

/-- A concrete service used by counterexamples: recorded STOPPED while
still holding process handle 3 — the state a graceful `stop()` leaves
behind. -/
def orphanStopped : ServiceState :=
  { host := "127.0.0.1", port := 8003, process := some 3,
    status := ServiceStatus.stopped }

/-- `check_health` in closed form: the returned boolean is the 200 test and
the only field that can change is the status, per `actualHealthTransition`. -/
theorem check_health_eq (p : ProbeResult) (s : ServiceState) :
    check_health p s = (probeOk p, { s with status := actualHealthTransition p s.status }) := by
  cases p <;> simp [check_health, probeOk, actualHealthTransition]
  split <;> simp_all

/-- Closed form of the polling loop on a state that owns pid `pid`: either
it succeeds, yielding RUNNING with the same handle, or it fails with status
ERROR, the handle either released or (only when the cleanup termination
raised on a still-running process) retained, and terminations attempted at
most on `pid`. -/
theorem startLoop_spec (env : StartEnv) :
    ∀ (fuel i : Nat) (H : String) (P pid : Nat) (st : ServiceStatus),
      startLoop env i fuel ⟨H, P, some pid, st⟩ =
          (true, ⟨H, P, some pid, ServiceStatus.running⟩, [], none)
      ∨ ∃ pr term,
          startLoop env i fuel ⟨H, P, some pid, st⟩ =
            (false, ⟨H, P, pr, ServiceStatus.error⟩, term, stderrLog env.stderrText) ∧
          (pr = none ∨ (pr = some pid ∧ env.cleanupStill = true ∧
            env.cleanupTerm = TermObs.raises)) ∧
          (term = [] ∨ term = [pid]) := by
  intro fuel
  induction fuel with
  | zero =>
      intro i H P pid st
      right
      cases hcs : env.cleanupStill <;> cases hct : env.cleanupTerm <;>
        simp [startLoop, cleanup_failed_process, hcs, hct] <;> aesop
  | succ n ih =>
      intro i H P pid st
      cases ho : env.obs i with
      | exited =>
          right
          simp [startLoop, ho, cleanup_failed_process]
          exact ⟨none, [], ⟨rfl, rfl⟩, Or.inl rfl, Or.inl rfl⟩
      | alive p =>
          cases p with
          | ok200 => left; simp [startLoop, ho, check_health]
          | codeOther =>
              have := ih (i + 1) H P pid ServiceStatus.unhealthy
              simpa [startLoop, ho, check_health] using this
          | netFail =>
              by_cases hst : st = ServiceStatus.running
              · have := ih (i + 1) H P pid ServiceStatus.unhealthy
                simpa [startLoop, ho, check_health, hst] using this
              · have := ih (i + 1) H P pid st
                simpa [startLoop, ho, check_health, hst] using this

/-- When the child is observed exited at tick `k` after `k` failing-probe
ticks, the polling loop reports a crash: `False`, status ERROR, handle
released, no termination attempted, stderr excerpt logged. -/
theorem startLoop_crash (env : StartEnv) :
    ∀ (k i fuel : Nat) (H : String) (P pid : Nat) (st : ServiceStatus),
      k < fuel →
      env.obs (i + k) = TickObs.exited →
      (∀ j, j < k → ∃ p, env.obs (i + j) = TickObs.alive p ∧ p ≠ ProbeResult.ok200) →
      startLoop env i fuel ⟨H, P, some pid, st⟩ =
        (false, ⟨H, P, none, ServiceStatus.error⟩, [], stderrLog env.stderrText) := by
  intro k
  induction k with
  | zero =>
      intro i fuel H P pid st hk hobs _
      obtain ⟨m, rfl⟩ : ∃ m, fuel = m + 1 := ⟨fuel - 1, by omega⟩
      simp only [Nat.add_zero] at hobs
      simp [startLoop, hobs, cleanup_failed_process]
  | succ k ih =>
      intro i fuel H P pid st hk hobs hpre
      obtain ⟨m, rfl⟩ : ∃ m, fuel = m + 1 := ⟨fuel - 1, by omega⟩
      obtain ⟨p, hp, hpne⟩ := hpre 0 (by omega)
      simp only [Nat.add_zero] at hp
      have hrec := fun st2 => ih (i + 1) m H P pid st2 (by omega)
        (by rw [show i + 1 + k = i + (k + 1) from by omega]; exact hobs)
        (fun j hj => by
          rw [show i + 1 + j = i + (j + 1) from by omega]
          exact hpre (j + 1) (by omega))
      cases p with
      | ok200 => exact absurd rfl hpne
      | codeOther =>
          simpa [startLoop, hp, check_health] using hrec ServiceStatus.unhealthy
      | netFail =>
          by_cases hst : st = ServiceStatus.running
          · simpa [startLoop, hp, check_health, hst] using hrec ServiceStatus.unhealthy
          · simpa [startLoop, hp, check_health, hst] using hrec st

/-- A `start` call that returned `True` left the status RUNNING. -/
theorem start_ok_running (env : StartEnv) (s : ServiceState)
    (h : (start env s).ok = true) : (start env s).st.status = ServiceStatus.running := by
  obtain ⟨H, P, pr, st⟩ := s
  by_cases hst : st = ServiceStatus.running
  · subst hst; simp [start]
  · unfold start at h ⊢
    simp [hst] at h ⊢
    cases hexe : env.exeOk
    · simp [hexe] at h
    · cases hscr : env.scriptOk
      · simp [hexe, hscr] at h
      · simp [hexe, hscr] at h ⊢
        rcases startLoop_spec env max_retries 0 H P env.newPid ServiceStatus.starting with
          hc | ⟨pr2, term, hc, _, _⟩
        · simp [hc]
        · simp [hc] at h

/-- C1 (amended): with a process handle present, `stop()` sets status
Stopped and returns success in both the graceful and the forced-kill
outcome, but never releases the handle; an internal failure caught during
termination leaves status and handle both unchanged and returns failure; a
failure inside the forced-kill escalation propagates as an exception with
the state unchanged. -/
theorem stop_keeps_handle (s : ServiceState) (p : Nat) (h : s.process = some p) :
    stop StopOutcome.graceful s =
      Except.ok (true, { s with status := ServiceStatus.stopped }) ∧
    stop StopOutcome.timeoutThenKill s =
      Except.ok (true, { s with status := ServiceStatus.stopped }) ∧
    ({ s with status := ServiceStatus.stopped } : ServiceState).process = some p ∧
    stop StopOutcome.internalExc s = Except.ok (false, s) ∧
    stop StopOutcome.killRaises s = Except.error () := by
  simp [stop, h]

/-- Witness for `stop_keeps_handle` at the concrete RUNNING service owning
pid 7. -/
theorem stop_keeps_handle_witness :
    svcRunning7.process = some 7 ∧
    stop StopOutcome.graceful svcRunning7 =
      Except.ok (true, { svcRunning7 with status := ServiceStatus.stopped }) ∧
    stop StopOutcome.timeoutThenKill svcRunning7 =
      Except.ok (true, { svcRunning7 with status := ServiceStatus.stopped }) ∧
    ({ svcRunning7 with status := ServiceStatus.stopped } : ServiceState).process = some 7 ∧
    stop StopOutcome.internalExc svcRunning7 = Except.ok (false, svcRunning7) ∧
    stop StopOutcome.killRaises svcRunning7 = Except.error () :=
  ⟨rfl, stop_keeps_handle svcRunning7 7 rfl⟩

/-- C1 counterexample: a graceful `stop()` of a RUNNING service owning
pid 7 sets status Stopped yet leaves the service still owning the handle —
the claimed release never happens. -/
theorem stop_graceful_retains_handle :
    stop StopOutcome.graceful svcRunning7 =
      Except.ok (true, { svcRunning7 with status := ServiceStatus.stopped }) ∧
    ({ svcRunning7 with status := ServiceStatus.stopped } : ServiceState).process ≠ none := by
  exact ⟨rfl, by decide⟩

/-- C2 (amended): the handle/status invariant is not preserved by every
operation, but a single `start()` call preserves it: when the pre-state
satisfies it and the internal cleanup termination does not raise, the
post-state satisfies it again — in particular every transition to Error
inside `start()` releases the handle. -/
theorem start_preserves_handleInv (env : StartEnv) (s : ServiceState)
    (h1 : handleInv s) (h2 : env.cleanupTerm ≠ TermObs.raises) :
    handleInv (start env s).st := by
  obtain ⟨H, P, pr, st⟩ := s
  by_cases hst : st = ServiceStatus.running
  · subst hst; simpa [start] using h1
  · have hclean : handleInv (cleanup_failed_process env.cleanupStill env.cleanupTerm
        ⟨H, P, pr, ServiceStatus.error⟩).1 := by
      rcases pr with _ | p
      · simp [cleanup_failed_process, handleInv]
      · cases hcs : env.cleanupStill
        · simp [cleanup_failed_process, hcs, handleInv]
        · cases hct : env.cleanupTerm
          · simp [cleanup_failed_process, hcs, hct, handleInv]
          · simp [cleanup_failed_process, hcs, hct, handleInv]
          · exact absurd hct h2
    unfold start
    cases hexe : env.exeOk
    · simpa [hst, hexe] using hclean
    · cases hscr : env.scriptOk
      · simpa [hst, hexe, hscr] using hclean
      · rcases startLoop_spec env max_retries 0 H P env.newPid ServiceStatus.starting with
          hc | ⟨pr2, term, hc, hpr2, _⟩
        · simp [hst, hexe, hscr, hc, handleInv]
        · rcases hpr2 with hnone | ⟨_, _, hraises⟩
          · subst hnone; simp [hst, hexe, hscr, hc, handleInv]
          · exact absurd hraises h2

/-- Witness for `start_preserves_handleInv` at a fresh STOPPED service and
a fully successful environment. -/
theorem start_preserves_handleInv_witness :
    handleInv svcFresh ∧ goodStartEnv.cleanupTerm ≠ TermObs.raises ∧
    handleInv (start goodStartEnv svcFresh).st :=
  ⟨by decide, by decide,
    start_preserves_handleInv goodStartEnv svcFresh (by decide) (by decide)⟩

/-- C2 counterexample: start a fresh service successfully, then stop it
gracefully; the result is status Stopped while still owning pid 5 — the
claimed invariant fails on this start/stop sequence. -/
theorem handleInv_violated_by_stop :
    (start goodStartEnv svcFresh).st =
      { host := "127.0.0.1", port := 8002, process := some 5,
        status := ServiceStatus.running } ∧
    stop StopOutcome.graceful (start goodStartEnv svcFresh).st =
      Except.ok (true, { host := "127.0.0.1", port := 8002, process := some 5,
                         status := ServiceStatus.stopped }) ∧
    ¬ handleInv { host := "127.0.0.1", port := 8002, process := some 5,
                  status := ServiceStatus.stopped } :=
  ⟨rfl, rfl, by decide⟩

/-- C7: `start()` is idempotent — after a `start()` that returned success,
a second `start()` with any environment returns success immediately with
the state unchanged, spawning nothing, terminating nothing and logging
nothing. -/
theorem start_idempotent (env1 env2 : StartEnv) (s : ServiceState)
    (h : (start env1 s).ok = true) :
    start env2 (start env1 s).st =
      { ok := true, st := (start env1 s).st, spawned := [], terminated := [],
        loggedStderr := none } := by
  have hr := start_ok_running env1 s h
  generalize hT : (start env1 s).st = t at hr ⊢
  unfold start
  rw [if_pos hr]

/-- Witness for `start_idempotent`: the fresh service started twice with
the all-good environment. -/
theorem start_idempotent_witness :
    (start goodStartEnv svcFresh).ok = true ∧
    start goodStartEnv (start goodStartEnv svcFresh).st =
      { ok := true, st := (start goodStartEnv svcFresh).st, spawned := [],
        terminated := [], loggedStderr := none } :=
  ⟨rfl, start_idempotent goodStartEnv goodStartEnv svcFresh rfl⟩

/-- C8: when the child is observed already exited at some tick of the
polling loop after only failing probes, `start()` returns failure with
status Error, the handle released, no termination attempted, and the
bounded 500-character stderr prefix captured for diagnostics. -/
theorem start_crash_before_ready (env : StartEnv) (s : ServiceState) (k : Nat)
    (h1 : s.status ≠ ServiceStatus.running) (h2 : env.exeOk = true)
    (h3 : env.scriptOk = true) (h4 : env.stderrText ≠ "")
    (h5 : k < max_retries) (h6 : env.obs k = TickObs.exited)
    (h7 : ∀ j, j < k → ∃ p, env.obs j = TickObs.alive p ∧ p ≠ ProbeResult.ok200) :
    start env s =
      { ok := false,
        st := { host := s.host, port := s.port, process := none,
                status := ServiceStatus.error },
        spawned := [env.newPid], terminated := [],
        loggedStderr := some (env.stderrText.take 500) } := by
  obtain ⟨H, P, pr, st⟩ := s
  simp only at h1
  unfold start
  simp only [h1, if_false, h2, h3]
  have hcrash := startLoop_crash env k 0 max_retries H P env.newPid
    ServiceStatus.starting h5 (by simpa using h6) (fun j hj => by simpa using h7 j hj)
  simp [hcrash, stderrLog, h4]

/-- Witness for `start_crash_before_ready`: the crash environment observes
the exit at the very first tick with stderr text present. -/
theorem start_crash_before_ready_witness :
    svcFresh.status ≠ ServiceStatus.running ∧ crashStartEnv.exeOk = true ∧
    crashStartEnv.scriptOk = true ∧ crashStartEnv.stderrText ≠ "" ∧
    0 < max_retries ∧ crashStartEnv.obs 0 = TickObs.exited ∧
    (∀ j, j < 0 → ∃ p, crashStartEnv.obs j = TickObs.alive p ∧ p ≠ ProbeResult.ok200) ∧
    start crashStartEnv svcFresh =
      { ok := false,
        st := { host := svcFresh.host, port := svcFresh.port, process := none,
                status := ServiceStatus.error },
        spawned := [crashStartEnv.newPid], terminated := [],
        loggedStderr := some (crashStartEnv.stderrText.take 500) } :=
  ⟨by decide, rfl, rfl, by decide, by decide, rfl, fun j hj => absurd hj (by omega),
    start_crash_before_ready crashStartEnv svcFresh 0 (by decide) rfl rfl (by decide)
      (by decide) rfl (fun j hj => absurd hj (by omega))⟩

/-- C9: from any status other than RUNNING (including STARTING and
UNHEALTHY), with the interpreter and script resolving, `start()` spawns a
fresh child, never attempts to terminate the previously owned process, and
the stored handle no longer refers to the old pid after the call. -/
theorem start_overwrites_handle (env : StartEnv) (s : ServiceState) (oldPid : Nat)
    (h1 : s.status ≠ ServiceStatus.running) (h2 : s.process = some oldPid)
    (h3 : env.exeOk = true) (h4 : env.scriptOk = true) (h5 : env.newPid ≠ oldPid) :
    (start env s).spawned = [env.newPid] ∧
    oldPid ∉ (start env s).terminated ∧
    (start env s).st.process ≠ some oldPid := by
  obtain ⟨H, P, pr, st⟩ := s
  simp only at h1
  unfold start
  simp only [h1, if_false, h3, h4]
  rcases startLoop_spec env max_retries 0 H P env.newPid ServiceStatus.starting with
    hc | ⟨pr2, term, hc, hpr2, hterm⟩
  · simp [hc]
    intro heq
    exact h5 heq
  · simp [hc]
    refine ⟨?_, ?_⟩
    · rcases hterm with ht | ht <;> simp [ht]
      intro heq
      exact h5 heq.symm
    · rcases hpr2 with hnone | ⟨hsome, _, _⟩
      · simp [hnone]
      · simp [hsome]
        intro heq
        exact h5 heq

/-- Witness for `start_overwrites_handle`: an UNHEALTHY service owning
pid 9, restarted with the all-good environment spawning pid 5. -/
theorem start_overwrites_handle_witness :
    (ServiceState.mk "127.0.0.1" 8004 (some 9) ServiceStatus.unhealthy).status ≠
      ServiceStatus.running ∧
    (ServiceState.mk "127.0.0.1" 8004 (some 9) ServiceStatus.unhealthy).process = some 9 ∧
    goodStartEnv.exeOk = true ∧ goodStartEnv.scriptOk = true ∧
    goodStartEnv.newPid ≠ 9 ∧
    (start goodStartEnv (ServiceState.mk "127.0.0.1" 8004 (some 9)
        ServiceStatus.unhealthy)).spawned = [goodStartEnv.newPid] ∧
    9 ∉ (start goodStartEnv (ServiceState.mk "127.0.0.1" 8004 (some 9)
        ServiceStatus.unhealthy)).terminated ∧
    (start goodStartEnv (ServiceState.mk "127.0.0.1" 8004 (some 9)
        ServiceStatus.unhealthy)).st.process ≠ some 9 := by
  refine ⟨by decide, rfl, rfl, rfl, by decide, ?_⟩
  exact start_overwrites_handle goodStartEnv
    (ServiceState.mk "127.0.0.1" 8004 (some 9) ServiceStatus.unhealthy) 9
    (by decide) rfl rfl rfl (by decide)

/-- Closed form of the `stop_all` iteration: each entry's outcome depends
only on its own state and its own stop observation, and `stop()` is
invoked exactly on the entries whose status is not STOPPED. -/
theorem stop_all_go_spec (os : Nat → StopOutcome) :
    ∀ (svcs : List (String × ServiceState)) (i : Nat),
      (stop_all_go os i svcs).1 = stopAllSpec os i svcs ∧
      (stop_all_go os i svcs).2 =
        (svcs.filter fun q => decide (q.2.status ≠ ServiceStatus.stopped)).map
          Prod.fst := by
  intro svcs
  induction svcs with
  | nil => intro i; simp [stop_all_go, stopAllSpec]
  | cons hd tl ih =>
      intro i
      obtain ⟨k, s⟩ := hd
      by_cases hs : s.status = ServiceStatus.stopped <;>
        simp [stop_all_go, stopAllSpec, hs, ih (i + 1), List.filter_cons]

/-- C4 (amended): `stop_all()` calls `stop()` on exactly the registered
services whose recorded status is not Stopped — Error included, so orphans
of failed starts are cleaned up, but a service recorded Stopped is skipped
even if it still owns a handle — and each service's outcome is independent
of any error raised by another service's `stop()`, so one misbehaving
service never blocks the rest. -/
theorem stop_all_characterization (os : Nat → StopOutcome)
    (svcs : List (String × ServiceState)) :
    (stop_all os svcs).1 = stopAllSpec os 0 svcs ∧
    (stop_all os svcs).2 =
      (svcs.filter fun q => decide (q.2.status ≠ ServiceStatus.stopped)).map
        Prod.fst :=
  stop_all_go_spec os svcs 0

/-- C4 counterexample: a registered service recorded Stopped yet still
owning pid 3 — `stop_all()` invokes `stop()` on nobody and leaves the
orphan untouched, though the claim demands a `stop()` call regardless of
recorded status. -/
theorem stop_all_skips_stopped_orphan :
    (stop_all (fun _ => StopOutcome.graceful) [("a", orphanStopped)]).2 = [] ∧
    (stop_all (fun _ => StopOutcome.graceful) [("a", orphanStopped)]).1 =
      [("a", orphanStopped)] ∧
    orphanStopped.status = ServiceStatus.stopped ∧
    orphanStopped.process = some 3 :=
  ⟨rfl, rfl, rfl, rfl⟩

/-- C5 (amended): `check_health()` returns the 200 test; a 200 sets status
Running from ANY prior status, a non-200 response sets Unhealthy from ANY
prior status, and only a network failure is guarded: it downgrades Running
to Unhealthy and leaves every other status unchanged; no other field is
touched — in particular no process is spawned, killed or restarted. -/
theorem check_health_transitions (p : ProbeResult) (s : ServiceState) :
    (check_health p s).1 = probeOk p ∧
    (check_health p s).2.status = actualHealthTransition p s.status ∧
    (check_health p s).2.process = s.process ∧
    (check_health p s).2.host = s.host ∧
    (check_health p s).2.port = s.port := by
  simp [check_health_eq]

/-- C5 counterexample: a non-200 probe of a STOPPED (never started)
service changes its status to Unhealthy, a transition outside the claim's
"exactly as follows" enumeration, which leaves STOPPED unchanged. -/
theorem check_health_changes_status_outside_claim :
    (check_health ProbeResult.codeOther svcFresh).2.status =
      ServiceStatus.unhealthy ∧
    claimedHealthTransition ProbeResult.codeOther svcFresh.status =
      ServiceStatus.stopped ∧
    svcFresh.status = ServiceStatus.stopped :=
  ⟨rfl, by decide, rfl⟩

/-- C6: the installed handler is declared with zero parameters while the
Python runtime delivers two, so every signal delivery raises `TypeError`
before the handler body runs: the shutdown flag is never set, `stop_all`
is never invoked from the signal path, and no exit code is produced. -/
theorem signal_delivery_raises_type_mismatch (os : Nat → StopOutcome)
    (c : CoordState) :
    deliver_signal os c = HandlerResult.typeErr c := by
  simp [deliver_signal, signal_delivery_arg_count, signal_handler_param_count]

/-- Closed form of `start_all`'s iteration when no `KeyboardInterrupt`
arrives: every entry is visited in order, failures never abort the walk,
and the four recorded lists are exactly their specification. -/
theorem start_all_go_spec (E : StartAllEnv) (exclude : List String)
    (hni : ∀ (i : Nat) (post : ServiceState), E.beh i ≠ SvcBeh.keyboardInt post) :
    ∀ (svcs : List (String × ServiceState)) (i : Nat)
      (done : List (String × ServiceState)),
      start_all_go E exclude i done svcs =
        { ok := false, services := done ++ processAll E exclude i svcs,
          successes := succNames E exclude i svcs,
          failures := failNames E exclude i svcs,
          skipped := skipNames exclude svcs,
          interrupted := false } := by
  intro svcs
  induction svcs with
  | nil => intro i done; simp [start_all_go, processAll, succNames, failNames, skipNames]
  | cons hd tl ih =>
      intro i done
      obtain ⟨k, s⟩ := hd
      by_cases hk : k ∈ exclude
      · simp [start_all_go, hk, ih (i + 1), processAll, succNames, failNames,
          skipNames, List.append_assoc]
      · cases hbeh : E.beh i with
        | normal env =>
            by_cases hok : (start env s).ok <;>
              simp [start_all_go, hk, hbeh, hok, ih (i + 1), processAll, succNames,
                failNames, skipNames, List.append_assoc]
        | raisesExc post =>
            simp [start_all_go, hk, hbeh, ih (i + 1), processAll, succNames,
              failNames, skipNames, List.append_assoc]
        | keyboardInt post => exact absurd hbeh (hni i post)

/-- C3 (amended): when no `KeyboardInterrupt` arrives during the walk,
`start_all` visits the registry in registration order with no early abort
on per-service failure — excluded entries untouched, every other entry
left in the state its own `start` produced — and returns `True` exactly
when at least one non-excluded `start` returned success. -/
theorem start_all_no_interrupt (E : StartAllEnv) (exclude : List String)
    (svcs : List (String × ServiceState))
    (hni : ∀ (i : Nat) (post : ServiceState), E.beh i ≠ SvcBeh.keyboardInt post) :
    (start_all E exclude svcs).interrupted = false ∧
    (start_all E exclude svcs).services = processAll E exclude 0 svcs ∧
    (start_all E exclude svcs).successes = succNames E exclude 0 svcs ∧
    ((start_all E exclude svcs).ok = true ↔ succNames E exclude 0 svcs ≠ []) := by
  have h := start_all_go_spec E exclude hni svcs 0 []
  unfold start_all
  rw [h]
  simp [List.isEmpty_iff]

/-- Witness for `start_all_no_interrupt`: one fresh service started with
the all-good environment. -/
theorem start_all_no_interrupt_witness :
    (∀ (i : Nat) (post : ServiceState), allGoodEnv.beh i ≠ SvcBeh.keyboardInt post) ∧
    ((start_all allGoodEnv [] [("a", svcFresh)]).interrupted = false ∧
      (start_all allGoodEnv [] [("a", svcFresh)]).services =
        processAll allGoodEnv [] 0 [("a", svcFresh)] ∧
      (start_all allGoodEnv [] [("a", svcFresh)]).successes =
        succNames allGoodEnv [] 0 [("a", svcFresh)] ∧
      ((start_all allGoodEnv [] [("a", svcFresh)]).ok = true ↔
        succNames allGoodEnv [] 0 [("a", svcFresh)] ≠ [])) :=
  ⟨fun i post h => by simp [allGoodEnv] at h,
    start_all_no_interrupt allGoodEnv [] [("a", svcFresh)]
      (fun i post h => by simp [allGoodEnv] at h)⟩

/-- C3 counterexample: service "a" starts successfully (reaching RUNNING),
then a `KeyboardInterrupt` arrives during service "b"; `start_all` aborts,
stops everything, and returns `False` although a non-excluded service
reached Running — refuting the claimed iff. -/
theorem start_all_interrupt_false_despite_success :
    (start goodStartEnv svcFresh).ok = true ∧
    (start goodStartEnv svcFresh).st.status = ServiceStatus.running ∧
    (start_all interruptEnv [] [("a", svcFresh), ("b", svcFresh)]).successes =
      ["a"] ∧
    (start_all interruptEnv [] [("a", svcFresh), ("b", svcFresh)]).ok = false :=
  ⟨rfl, rfl, rfl, rfl⟩

/-- Closed form of `get_status`: the snapshots are computed from the
PRE-probe states while the registry is updated exactly as by
`health_check_all`. -/
theorem get_status_go_spec (ps : Nat → ProbeResult) :
    ∀ (svcs : List (String × ServiceState)) (i : Nat),
      (get_status ps i svcs).1 = preSnapshots ps i svcs ∧
      (get_status ps i svcs).2 = (health_check_all ps i svcs).2 := by
  intro svcs
  induction svcs with
  | nil => intro i; simp [get_status, preSnapshots, health_check_all]
  | cons hd tl ih =>
      intro i
      obtain ⟨k, s⟩ := hd
      simp [get_status, preSnapshots, health_check_all, snapshotOf,
        ih (i + 1), check_health_eq]

/-- C10: `get_status` is not effect-free — its registry after the call is
exactly the one `health_check_all` (a probe of every service) leaves
behind, so the probes' status side effects persist — while each snapshot's
status string is read from the PRE-probe state and its healthy flag is the
fresh probe of the same call. -/
theorem get_status_reads_status_before_probe (ps : Nat → ProbeResult)
    (svcs : List (String × ServiceState)) :
    (get_status ps 0 svcs).1 = preSnapshots ps 0 svcs ∧
    (get_status ps 0 svcs).2 = (health_check_all ps 0 svcs).2 :=
  get_status_go_spec ps svcs 0

end SM
